import Mathlib

/-
Verification of the GhasedakLib SMS client library.

The development shallowly embeds the three Python source files
(GhasedakLib/ghasedak.py, exceptions.py, status.py) as Lean definitions:
JSON values are an inductive type, Python dicts are association lists with
Python's insert-or-overwrite assignment semantics, Python exceptions that
escape an operation are an explicit error constructor, and the HTTP
transport (the requests library) is an injected function producing either
a transport failure or a status/body pair.
-/

namespace GhasedakLib

/-- A JSON value, as produced by response.json in the Python client:
null, booleans, integers, strings, arrays and objects.  Response bodies
are modelled as already-parsed JSON values. -/
inductive Json where
  | null : Json
  | bool (b : Bool) : Json
  | num (n : Int) : Json
  | str (s : String) : Json
  | arr (elems : List Json) : Json
  | obj (fields : List (String × Json)) : Json

/-- The Python comparison of the envelope result code against the int
literal 200: true exactly for the JSON int 200 (a bool or string code
compares unequal without raising). -/
def Json.eq200 : Json → Bool
  | Json.num n => n == 200
  | _ => false

/-- Python runtime errors that can escape the library code paths we model:
TypeError (bad subscript target, str returning non-string), KeyError
(missing dict key), IndexError (list index out of range). -/
inductive PyError where
  | typeError : PyError
  | keyError : PyError
  | indexError : PyError
deriving DecidableEq

/-- Python subscript v[k] with a string key, as used on parsed JSON:
a dict yields the value or KeyError; a list or string with a string key
is a TypeError; plain values are not subscriptable. -/
def Json.getItem (v : Json) (k : String) : Except PyError Json :=
  match v with
  | Json.obj kvs =>
    match kvs.lookup k with
    | some x => Except.ok x
    | none => Except.error PyError.keyError
  | _ => Except.error PyError.typeError

/-- Python subscript v[i] with an int index, as in res[1] of sendMessage:
a list yields the element or IndexError; a string yields the character or
IndexError; a dict with string keys has no int key, hence KeyError;
None and plain scalars raise TypeError. -/
def Json.index (v : Json) (i : Nat) : Except PyError Json :=
  match v with
  | Json.arr xs =>
    match xs.get? i with
    | some x => Except.ok x
    | none => Except.error PyError.indexError
  | Json.str s =>
    match s.data.get? i with
    | some c => Except.ok (Json.str (String.mk [c]))
    | none => Except.error PyError.indexError
  | Json.obj _ => Except.error PyError.keyError
  | _ => Except.error PyError.typeError

/-- A value stored in the outbound request-data dict.  The Python code
stores str(...) results for almost every key but stores the raw enum
integer for the type key, so both variants occur. -/
inductive ParamValue where
  | str (s : String) : ParamValue
  | int (n : Int) : ParamValue
deriving DecidableEq

/-- Whether an outbound parameter value is a Python string. -/
def ParamValue.isStr : ParamValue → Bool
  | ParamValue.str _ => true
  | ParamValue.int _ => false

/-- A method argument the Python caller may pass where the code applies
str(...): either already a string or an int (timestamps, ids). -/
inductive PyArg where
  | str (s : String) : PyArg
  | int (n : Int) : PyArg
deriving DecidableEq

/-- Python str(...) on a method argument. -/
def PyArg.toStr : PyArg → String
  | PyArg.str s => s
  | PyArg.int n => toString n

/-- Python dict assignment d[k] = v on an association list: overwrite the
value in place when the key is present, append otherwise (insertion order
is preserved, as in CPython dicts). -/
def dictSet {β : Type} (d : List (String × β)) (k : String) (v : β) :
    List (String × β) :=
  if d.any (fun p => p.1 == k) then
    d.map (fun p => if p.1 = k then (k, v) else p)
  else
    d ++ [(k, v)]

/-- MessageType enum from ghasedak.py: TEXT = 1, VOICE = 2. -/
inductive MessageType where
  | TEXT : MessageType
  | VOICE : MessageType
deriving DecidableEq

/-- The .value of a MessageType member. -/
def MessageType.value : MessageType → Int
  | MessageType.TEXT => 1
  | MessageType.VOICE => 2

/-- MessageIDType enum from ghasedak.py: MESSAGE_ID = 1, CHECK_ID = 2. -/
inductive MessageIDType where
  | MESSAGE_ID : MessageIDType
  | CHECK_ID : MessageIDType
deriving DecidableEq

/-- The .value of a MessageIDType member. -/
def MessageIDType.value : MessageIDType → Int
  | MessageIDType.MESSAGE_ID => 1
  | MessageIDType.CHECK_ID => 2

/-- The Statuses dict from status.py, keys 0 through 6. -/
def Statuses : List (Int × String) :=
  [(0, "Not received to the server"),
   (1, "Received to the phone"),
   (2, "Not received to the phone"),
   (3, "Received to the contact"),
   (4, "Not received to the contact"),
   (5, "Receptor is in Blacklist"),
   (6, "Given Id is wrong")]

/-- Python Statuses.get(x): dict lookup returning None when absent.
Python bool keys hash like the ints 0/1; non-int keys are simply absent. -/
def statusesGet (v : Json) : Json :=
  match v with
  | Json.num k =>
    match Statuses.lookup k with
    | some s => Json.str s
    | none => Json.null
  | Json.bool b =>
    match Statuses.lookup (if b then 1 else 0) with
    | some s => Json.str s
    | none => Json.null
  | _ => Json.null

mutual

/-- Python repr of a parsed JSON value (strings quoted, lists bracketed,
dicts braced; string escaping is not modelled, no message in this
development contains a quote). -/
def pyRepr : Json → String
  | Json.null => "None"
  | Json.bool true => "True"
  | Json.bool false => "False"
  | Json.num n => toString n
  | Json.str s => "\x27" ++ s ++ "\x27"
  | Json.arr xs => "[" ++ String.intercalate ", " (pyReprList xs) ++ "]"
  | Json.obj kvs => "\x7b" ++ String.intercalate ", " (pyReprFields kvs) ++ "\x7d"

/-- repr of each element of a JSON array. -/
def pyReprList : List Json → List String
  | [] => []
  | x :: xs => pyRepr x :: pyReprList xs

/-- repr of each key-value pair of a JSON object. -/
def pyReprFields : List (String × Json) → List String
  | [] => []
  | (k, v) :: xs => ("\x27" ++ k ++ "\x27: " ++ pyRepr v) :: pyReprFields xs

end

/-- Python str(...) of a parsed JSON value: identity on strings, repr
otherwise. -/
def pyStr : Json → String
  | Json.str s => s
  | v => pyRepr v

/-- ApiException from exceptions.py: carries the code and message taken
from the response envelope (whatever JSON values those were). -/
structure ApiException where
  code : Json
  message : Json

/-- ApiException str conversion from exceptions.py: when
400 <= code < 500 it returns the formatted Client Error string; for other
int (or bool, an int subclass) codes the method body falls through and
returns None; comparing a non-int code against 400 raises TypeError. -/
def ApiException.strConv (e : ApiException) : Except PyError (Option String) :=
  match e.code with
  | Json.num c =>
    if 400 ≤ c ∧ c < 500 then
      Except.ok (some (toString c ++ " Client Error: " ++ pyStr e.message))
    else
      Except.ok none
  | Json.bool _ => Except.ok none
  | _ => Except.error PyError.typeError

/-- The f-string of the except-clause print in each public operation:
formatting the caught ApiException calls its str conversion; a None
result makes the f-string raise TypeError, so the except clause itself
raises instead of reaching the sentinel return. -/
def formatGhasedakError (e : ApiException) : Except PyError String :=
  match e.strConv with
  | Except.error err => Except.error err
  | Except.ok none => Except.error PyError.typeError
  | Except.ok (some s) => Except.ok ("[Ghasedak] " ++ s)

/-- Outcome of one HTTP round-trip by the injected requests transport:
a connection-level failure (requests.ConnectionError), some other
requests.RequestException, or a completed response with an HTTP status
code and a parsed JSON body. -/
inductive HttpOutcome where
  | connectionError : HttpOutcome
  | requestException : HttpOutcome
  | httpResponse (status : Nat) (body : Json) : HttpOutcome

/-- The injected transport capability: given method, url, form data and
headers, produce the round-trip outcome. -/
abbrev Transport : Type :=
  String → String → List (String × ParamValue) → List (String × String) → HttpOutcome

/-- The Ghasedak client class: apikey and the fixed v2 base url. -/
structure Ghasedak where
  apikey : String
  url : String
deriving DecidableEq

/-- Ghasedak.__init__: store the apikey and fix the base url. -/
def Ghasedak.init (apikey : String) : Ghasedak :=
  { apikey := apikey, url := "https://api.ghasedak.io/v2" }

/-- The headers dict built by makeRequest. -/
def Ghasedak.headers (g : Ghasedak) : List (String × String) :=
  [("Accept", "application/json"),
   ("Content-Type", "application/x-www-form-urlencoded"),
   ("charset", "utf-8"),
   ("apikey", g.apikey)]

/-- What a call to makeRequest does: return a value (None after a caught
transport error, or the items payload on result code 200), raise
ApiException on a non-200 result code, or let a plain Python error
(KeyError on a malformed envelope) propagate. -/
inductive MakeRequestOutcome where
  | ret (v : Json) : MakeRequestOutcome
  | raiseApi (e : ApiException) : MakeRequestOutcome
  | raisePy (e : PyError) : MakeRequestOutcome

/-- Ghasedak.makeRequest.  ConnectionError and RequestException are caught
and make the method return None; HTTPError from raise_for_status (an HTTP
status in 400..599) is caught, printed, and falls through, so the body is
parsed and the result code checked exactly as for a 2xx status.  A 200
result code returns the items field; any other result code raises
ApiException with the envelope code and message.  (In the Python source
data defaults to None, replaced by an empty dict, and method defaults to
POST; callers here always pass both explicitly.) -/
def Ghasedak.makeRequest (g : Ghasedak) (t : Transport) (endpoint : String)
    (data : List (String × ParamValue)) (method : String) : MakeRequestOutcome :=
  match t method (g.url ++ endpoint) data g.headers with
  | HttpOutcome.connectionError => MakeRequestOutcome.ret Json.null
  | HttpOutcome.requestException => MakeRequestOutcome.ret Json.null
  | HttpOutcome.httpResponse _status body =>
    match body.getItem "result" with
    | Except.error e => MakeRequestOutcome.raisePy e
    | Except.ok result =>
      match result.getItem "code" with
      | Except.error e => MakeRequestOutcome.raisePy e
      | Except.ok code =>
        if code.eq200 then
          match body.getItem "items" with
          | Except.error e => MakeRequestOutcome.raisePy e
          | Except.ok items => MakeRequestOutcome.ret items
        else
          match result.getItem "message" with
          | Except.error e => MakeRequestOutcome.raisePy e
          | Except.ok message =>
            MakeRequestOutcome.raiseApi { code := code, message := message }

/-- Result of one public operation call: a returned value (with Python
False as Json.bool false and None as Json.null) or a Python error that
crossed the public API boundary. -/
inductive OpResult where
  | ret (v : Json) : OpResult
  | raises (e : PyError) : OpResult

/-- The data dict built by sendMessage: message and receptor stringified,
then linenumber, senddate, checkid only when provided. -/
def sendMessageData (message receptor : PyArg)
    (linenumber senddate checkid : Option PyArg) : List (String × ParamValue) :=
  let d : List (String × ParamValue) := []
  let d := dictSet d "message" (ParamValue.str message.toStr)
  let d := dictSet d "receptor" (ParamValue.str receptor.toStr)
  let d := match linenumber with
    | some v => dictSet d "linenumber" (ParamValue.str v.toStr)
    | none => d
  let d := match senddate with
    | some v => dictSet d "senddate" (ParamValue.str v.toStr)
    | none => d
  match checkid with
  | some v => dictSet d "checkid" (ParamValue.str v.toStr)
  | none => d

/-- Ghasedak.sendMessage: posts the data to /sms/send/simple; an
ApiException is caught, formatted and printed, and False is returned;
otherwise the method returns res[1] (which raises TypeError when the
makeRequest result was None after a transport failure). -/
def Ghasedak.sendMessage (g : Ghasedak) (t : Transport) (message receptor : PyArg)
    (linenumber senddate checkid : Option PyArg) : OpResult :=
  let data := sendMessageData message receptor linenumber senddate checkid
  match g.makeRequest t "/sms/send/simple" data "POST" with
  | MakeRequestOutcome.ret res =>
    match res.index 1 with
    | Except.ok v => OpResult.ret v
    | Except.error e => OpResult.raises e
  | MakeRequestOutcome.raiseApi e =>
    match formatGhasedakError e with
    | Except.ok _ => OpResult.ret (Json.bool false)
    | Except.error err => OpResult.raises err
  | MakeRequestOutcome.raisePy e => OpResult.raises e

/-- The data dict built by sendOtpVerification: receptor and template
stringified, the raw enum int for type, optional checkid, then each extra
keyword parameter stringified in order, and finally param1 forced to
str(otp).  (Python keyword arguments cannot reuse the declared parameter
names otp, receptor, template, type, checkid.) -/
def sendOtpVerificationData (otp receptor template : PyArg) (type : MessageType)
    (checkid : Option PyArg) (params : List (String × PyArg)) :
    List (String × ParamValue) :=
  let d : List (String × ParamValue) := []
  let d := dictSet d "receptor" (ParamValue.str receptor.toStr)
  let d := dictSet d "template" (ParamValue.str template.toStr)
  let d := dictSet d "type" (ParamValue.int type.value)
  let d := match checkid with
    | some v => dictSet d "checkid" (ParamValue.str v.toStr)
    | none => d
  let d := params.foldl (fun acc p => dictSet acc p.1 (ParamValue.str p.2.toStr)) d
  dictSet d "param1" (ParamValue.str otp.toStr)

/-- Ghasedak.sendOtpVerification: posts the data to
/verification/send/simple; an ApiException is caught, formatted and
printed, and False is returned; otherwise the makeRequest result is
returned unchanged (None after a transport failure). -/
def Ghasedak.sendOtpVerification (g : Ghasedak) (t : Transport)
    (otp receptor template : PyArg) (type : MessageType) (checkid : Option PyArg)
    (params : List (String × PyArg)) : OpResult :=
  let data := sendOtpVerificationData otp receptor template type checkid params
  match g.makeRequest t "/verification/send/simple" data "POST" with
  | MakeRequestOutcome.ret res => OpResult.ret res
  | MakeRequestOutcome.raiseApi e =>
    match formatGhasedakError e with
    | Except.ok _ => OpResult.ret (Json.bool false)
    | Except.error err => OpResult.raises err
  | MakeRequestOutcome.raisePy e => OpResult.raises e

/-- The data dict built by getSMSStatus: stringified id and the raw enum
int for type. -/
def getSMSStatusData (id : PyArg) (type : MessageIDType) :
    List (String × ParamValue) :=
  dictSet (dictSet [] "id" (ParamValue.str id.toStr)) "type"
    (ParamValue.int type.value)

/-- The body of the translation loop for one item:
item[ "status" ] = Statuses.get(item[ "status" ]).  Reading the status
key of a non-dict item raises TypeError; a dict without the key raises
KeyError; otherwise the status value is replaced in place. -/
def translateStatusItem (item : Json) : Except PyError Json :=
  match item with
  | Json.obj kvs =>
    match kvs.lookup "status" with
    | some s => Except.ok (Json.obj (dictSet kvs "status" (statusesGet s)))
    | none => Except.error PyError.keyError
  | _ => Except.error PyError.typeError

/-- The translation loop over a JSON array of items, stopping at the
first item whose translation raises. -/
def translateStatusList : List Json → Except PyError (List Json)
  | [] => Except.ok []
  | item :: rest =>
    match translateStatusItem item with
    | Except.error e => Except.error e
    | Except.ok o =>
      match translateStatusList rest with
      | Except.error e => Except.error e
      | Except.ok os => Except.ok (o :: os)

/-- Python for item in res over the makeRequest result: an array iterates
its items; an empty dict or empty string iterates nothing and res is
returned unchanged; a nonempty dict or string yields a string item whose
status subscript raises TypeError; None and scalars are not iterable. -/
def translateStatuses : Json → Except PyError Json
  | Json.arr items =>
    match translateStatusList items with
    | Except.ok out => Except.ok (Json.arr out)
    | Except.error e => Except.error e
  | Json.obj [] => Except.ok (Json.obj [])
  | Json.obj (_ :: _) => Except.error PyError.typeError
  | Json.str "" => Except.ok (Json.str "")
  | Json.str _ => Except.error PyError.typeError
  | _ => Except.error PyError.typeError

/-- Ghasedak.getSMSStatus: issues a GET to /sms/status; an ApiException
is caught, formatted and printed, and False is returned; otherwise each
returned entry has its status field rewritten via Statuses.get and the
rewritten sequence is returned (iterating the None left by a transport
failure raises TypeError). -/
def Ghasedak.getSMSStatus (g : Ghasedak) (t : Transport) (id : PyArg)
    (type : MessageIDType) : OpResult :=
  match g.makeRequest t "/sms/status" (getSMSStatusData id type) "GET" with
  | MakeRequestOutcome.ret res =>
    match translateStatuses res with
    | Except.ok v => OpResult.ret v
    | Except.error e => OpResult.raises e
  | MakeRequestOutcome.raiseApi e =>
    match formatGhasedakError e with
    | Except.ok _ => OpResult.ret (Json.bool false)
    | Except.error err => OpResult.raises err
  | MakeRequestOutcome.raisePy e => OpResult.raises e

/-- Ghasedak.getAccountInfo: posts to /account/info with no data; an
ApiException is caught, formatted and printed, and None is returned;
otherwise the makeRequest result is returned unchanged. -/
def Ghasedak.getAccountInfo (g : Ghasedak) (t : Transport) : OpResult :=
  match g.makeRequest t "/account/info" [] "POST" with
  | MakeRequestOutcome.ret res => OpResult.ret res
  | MakeRequestOutcome.raiseApi e =>
    match formatGhasedakError e with
    | Except.ok _ => OpResult.ret Json.null
    | Except.error err => OpResult.raises err
  | MakeRequestOutcome.raisePy e => OpResult.raises e

/-- A transport that returns the same outcome for every request; used to
state claims about a mocked round-trip. -/
def constTransport (o : HttpOutcome) : Transport :=
  fun _ _ _ _ => o

/-- A well-formed response envelope with the given result code, result
message and items payload. -/
def envelope (code : Int) (message : String) (items : Json) : Json :=
  Json.obj [("result", Json.obj [("code", Json.num code),
                                 ("message", Json.str message)]),
            ("items", items)]

/-- A delivery-status entry as returned by the service before translation:
an object whose status field is a JSON int between 0 and 6, the keys of
the Statuses table. -/
def hasIntStatusInTable (item : Json) : Prop :=
  ∃ kvs k, item = Json.obj kvs ∧ kvs.lookup "status" = some (Json.num k)
    ∧ 0 ≤ k ∧ k ≤ 6

/-- A delivery-status entry after translation: an object whose status
field is a JSON string drawn from the values of the Statuses table. -/
def hasTableStatusString (item : Json) : Prop :=
  ∃ kvs s, item = Json.obj kvs ∧ kvs.lookup "status" = some (Json.str s)
    ∧ s ∈ Statuses.map Prod.snd

section DictLemmas

variable {β : Type}

/-- Looking up the key at the head of an association list. -/
theorem lookup_cons_self (k : String) (v : β) (l : List (String × β)) :
    ((k, v) :: l).lookup k = some v := by
  simp [List.lookup]

/-- Looking up a key different from the head key skips the head. -/
theorem lookup_cons_ne (k0 k : String) (v0 : β) (l : List (String × β))
    (h : k ≠ k0) : ((k0, v0) :: l).lookup k = l.lookup k := by
  simp [List.lookup, beq_false_of_ne h]

/-- Every entry of dictSet d k v is an entry of d or the pair (k, v). -/
theorem mem_dictSet {d : List (String × β)} {k : String} {v : β}
    {p : String × β} (h : p ∈ dictSet d k v) : p ∈ d ∨ p = (k, v) := by
  unfold dictSet at h
  split at h
  · rcases List.mem_map.mp h with ⟨q, hq, hfq⟩
    by_cases hqk : q.1 = k
    · right
      rw [if_pos hqk] at hfq
      exact hfq.symm
    · left
      rw [if_neg hqk] at hfq
      exact hfq ▸ hq
  · rcases List.mem_append.mp h with hq | hq
    · exact Or.inl hq
    · exact Or.inr (by simpa using hq)

/-- A Boolean predicate holding on every entry of d and on (k, v) holds on
every entry of dictSet d k v. -/
theorem all_dictSet (P : String × β → Bool) (d : List (String × β))
    (k : String) (v : β) (hd : d.all P = true) (hv : P (k, v) = true) :
    (dictSet d k v).all P = true := by
  rw [List.all_eq_true] at hd ⊢
  intro p hp
  rcases mem_dictSet hp with h | h
  · exact hd p h
  · rw [h]
    exact hv

/-- Overwriting every entry keyed k with (k, v) makes lookup of k yield v,
provided some entry was keyed k. -/
theorem lookup_map_overwrite (d : List (String × β)) (k : String) (v : β)
    (h : d.any (fun p => p.1 == k) = true) :
    (d.map (fun p => if p.1 = k then (k, v) else p)).lookup k = some v := by
  induction d with
  | nil => simp at h
  | cons p rest ih =>
    obtain ⟨k0, v0⟩ := p
    by_cases hpk : k0 = k
    · simp only [List.map_cons, if_pos hpk]
      exact lookup_cons_self k v _
    · have hrest : rest.any (fun p => p.1 == k) = true := by
        simpa [List.any_cons, hpk] using h
      simp only [List.map_cons, if_neg hpk]
      rw [lookup_cons_ne k0 k v0 _ (Ne.symm hpk)]
      exact ih hrest

/-- Replacing the entries keyed k leaves the lookup of any other key
unchanged. -/
theorem lookup_map_overwrite_ne (d : List (String × β)) (k k' : String)
    (v : β) (h : k' ≠ k) :
    (d.map (fun p => if p.1 = k then (k, v) else p)).lookup k' = d.lookup k' := by
  induction d with
  | nil => rfl
  | cons p rest ih =>
    obtain ⟨k0, v0⟩ := p
    by_cases hpk : k0 = k
    · subst hpk
      simp only [List.map_cons, eq_self_iff_true, if_true]
      rw [lookup_cons_ne k0 k' v _ h, lookup_cons_ne k0 k' v0 _ h, ih]
    · simp only [List.map_cons, if_neg hpk]
      by_cases hk' : k' = k0
      · subst hk'
        rw [lookup_cons_self, lookup_cons_self]
      · rw [lookup_cons_ne k0 k' v0 _ hk', lookup_cons_ne k0 k' v0 _ hk', ih]

/-- Appending (k, v) to a list with no entry keyed k makes lookup of k
yield v. -/
theorem lookup_append_absent (d : List (String × β)) (k : String) (v : β)
    (h : d.any (fun p => p.1 == k) = false) :
    (d ++ [(k, v)]).lookup k = some v := by
  induction d with
  | nil =>
    simp only [List.nil_append]
    exact lookup_cons_self k v []
  | cons p rest ih =>
    obtain ⟨k0, v0⟩ := p
    simp only [List.any_cons, Bool.or_eq_false_iff] at h
    have hpk : k ≠ k0 := (ne_of_beq_false h.1).symm
    simp only [List.cons_append]
    rw [lookup_cons_ne k0 k v0 _ hpk]
    exact ih h.2

/-- Appending an entry keyed k leaves the lookup of any other key
unchanged. -/
theorem lookup_append_ne (d : List (String × β)) (k k' : String) (v : β)
    (h : k' ≠ k) : (d ++ [(k, v)]).lookup k' = d.lookup k' := by
  induction d with
  | nil => simp [List.lookup, beq_false_of_ne h]
  | cons p rest ih =>
    obtain ⟨k0, v0⟩ := p
    by_cases hk' : k' = k0
    · subst hk'
      simp only [List.cons_append]
      rw [lookup_cons_self, lookup_cons_self]
    · simp only [List.cons_append]
      rw [lookup_cons_ne k0 k' v0 _ hk', lookup_cons_ne k0 k' v0 _ hk', ih]

/-- Looking up the key just assigned by dictSet yields the assigned
value. -/
theorem lookup_dictSet_self (d : List (String × β)) (k : String) (v : β) :
    (dictSet d k v).lookup k = some v := by
  unfold dictSet
  split
  case isTrue h => exact lookup_map_overwrite d k v h
  case isFalse h =>
    exact lookup_append_absent d k v (by simpa only [Bool.not_eq_true] using h)

/-- Assigning key k leaves the lookup of any other key unchanged. -/
theorem lookup_dictSet_ne (d : List (String × β)) (k k' : String) (v : β)
    (h : k' ≠ k) : (dictSet d k v).lookup k' = d.lookup k' := by
  unfold dictSet
  split
  · exact lookup_map_overwrite_ne d k k' v h
  · exact lookup_append_ne d k k' v h

end DictLemmas

/-- The keyword-parameter fold of sendOtpVerification preserves a Boolean
predicate holding on the accumulated dict and on every stringified
inserted pair. -/
theorem all_foldl_dictSet (P : String × ParamValue → Bool)
    (params : List (String × PyArg)) (d : List (String × ParamValue))
    (hd : d.all P = true)
    (hps : ∀ q ∈ params, P (q.1, ParamValue.str q.2.toStr) = true) :
    (params.foldl (fun acc p => dictSet acc p.1 (ParamValue.str p.2.toStr)) d).all
      P = true := by
  induction params generalizing d with
  | nil => simpa using hd
  | cons q rest ih =>
    simp only [List.foldl_cons]
    exact ih _ (all_dictSet P d q.1 _ hd (hps q (by simp)))
      (fun r hr => hps r (by simp [hr]))

/-- The keyword-parameter fold of sendOtpVerification leaves the lookup of
a key none of the keyword names equals unchanged. -/
theorem foldl_lookup_ne (params : List (String × PyArg))
    (d : List (String × ParamValue)) (k : String)
    (h : ∀ q ∈ params, q.1 ≠ k) :
    (params.foldl (fun acc p => dictSet acc p.1 (ParamValue.str p.2.toStr)) d).lookup
      k = d.lookup k := by
  induction params generalizing d with
  | nil => rfl
  | cons q rest ih =>
    simp only [List.foldl_cons]
    rw [ih _ (fun r hr => h r (by simp [hr]))]
    exact lookup_dictSet_ne d q.1 k _ (fun hk => h q (by simp) hk.symm)

/-- A mocked round-trip carrying a well-formed envelope with result code
200 makes makeRequest return the items payload, whatever the HTTP status
was. -/
theorem makeRequest_envelope_200 (g : Ghasedak) (status : Nat) (m : String)
    (it : Json) (endpoint : String) (data : List (String × ParamValue))
    (method : String) :
    g.makeRequest (constTransport (HttpOutcome.httpResponse status
        (envelope 200 m it))) endpoint data method
      = MakeRequestOutcome.ret it := rfl

/-- A mocked round-trip carrying a well-formed envelope with a non-200
result code makes makeRequest raise ApiException with that code and
message, whatever the HTTP status was. -/
theorem makeRequest_envelope_non200 (g : Ghasedak) (status : Nat) (c : Int)
    (m : String) (it : Json) (endpoint : String)
    (data : List (String × ParamValue)) (method : String) (h : c ≠ 200) :
    g.makeRequest (constTransport (HttpOutcome.httpResponse status
        (envelope c m it))) endpoint data method
      = MakeRequestOutcome.raiseApi
          (ApiException.mk (Json.num c) (Json.str m)) := by
  unfold Ghasedak.makeRequest constTransport envelope
  simp [Json.getItem, List.lookup, Json.eq200, h]

/-- Statuses.get of a JSON int between 0 and 6 is a string drawn from the
values of the Statuses table. -/
theorem statusesGet_table (k : Int) (h0 : 0 ≤ k) (h6 : k ≤ 6) :
    ∃ s, statusesGet (Json.num k) = Json.str s ∧ s ∈ Statuses.map Prod.snd := by
  interval_cases k
  · exact ⟨"Not received to the server", rfl, by decide⟩
  · exact ⟨"Received to the phone", rfl, by decide⟩
  · exact ⟨"Not received to the phone", rfl, by decide⟩
  · exact ⟨"Received to the contact", rfl, by decide⟩
  · exact ⟨"Not received to the contact", rfl, by decide⟩
  · exact ⟨"Receptor is in Blacklist", rfl, by decide⟩
  · exact ⟨"Given Id is wrong", rfl, by decide⟩

/-- Translating one entry whose status is an int key of the Statuses table
succeeds and yields an entry whose status is the table string. -/
theorem translateStatusItem_table (item : Json) (h : hasIntStatusInTable item) :
    ∃ o, translateStatusItem item = Except.ok o ∧ hasTableStatusString o := by
  rcases h with ⟨kvs, k, rfl, hlk, h0, h6⟩
  rcases statusesGet_table k h0 h6 with ⟨s, hs, hmem⟩
  refine ⟨Json.obj (dictSet kvs "status" (statusesGet (Json.num k))), ?_, ?_⟩
  · simp only [translateStatusItem, hlk]
  · exact ⟨dictSet kvs "status" (statusesGet (Json.num k)), s, rfl,
      by rw [lookup_dictSet_self, hs], hmem⟩

/-- Translating a list of entries whose statuses are all int keys of the
Statuses table succeeds, preserves the length, and yields entries whose
statuses are table strings. -/
theorem translateStatusList_table (items : List Json)
    (h : ∀ item ∈ items, hasIntStatusInTable item) :
    ∃ out, translateStatusList items = Except.ok out
      ∧ out.length = items.length ∧ ∀ o ∈ out, hasTableStatusString o := by
  induction items with
  | nil => exact ⟨[], rfl, rfl, by simp⟩
  | cons item rest ih =>
    rcases translateStatusItem_table item (h item (by simp)) with ⟨o, ho, hP⟩
    rcases ih (fun x hx => h x (by simp [hx])) with ⟨os, hos, hlen, hPs⟩
    refine ⟨o :: os, ?_, by simp [hlen], ?_⟩
    · unfold translateStatusList
      rw [ho, hos]
    · intro x hx
      rcases List.mem_cons.mp hx with rfl | hx
      · exact hP
      · exact hPs x hx

/-- Claim C1 (code-bug evidence): the claim says transport failures make
every public operation return its failure sentinel with no exception
crossing the public API boundary, but when makeRequest catches a
requests.ConnectionError it returns None, and then sendMessage evaluates
None[1] and getSMSStatus iterates None, so both raise TypeError across
the public boundary on well-formed arguments. -/
theorem C1_transport_failure_raises :
    (Ghasedak.init "key").sendMessage (constTransport HttpOutcome.connectionError)
        (PyArg.str "hello") (PyArg.str "98912345678") none none none
      = OpResult.raises PyError.typeError
    ∧ (Ghasedak.init "key").getSMSStatus (constTransport HttpOutcome.connectionError)
        (PyArg.str "123") MessageIDType.CHECK_ID
      = OpResult.raises PyError.typeError :=
  ⟨rfl, rfl⟩

/-- Claim C2 (counterexample): against the envelope with result code 402
and message Insufficient credit, sendMessage returns the bare Python
False, and it returns the identical bare False against a 404 envelope
with a different message, so the returned failure result carries neither
the code 402 nor the message. -/
theorem C2_counterexample :
    (Ghasedak.init "key").sendMessage (constTransport (HttpOutcome.httpResponse 200
        (Json.obj [("result", Json.obj [("code", Json.num 402),
          ("message", Json.str "Insufficient credit")])])))
        (PyArg.str "hello") (PyArg.str "98912345678") none none none
      = OpResult.ret (Json.bool false)
    ∧ (Ghasedak.init "key").sendMessage (constTransport (HttpOutcome.httpResponse 200
        (Json.obj [("result", Json.obj [("code", Json.num 404),
          ("message", Json.str "Not Found")])])))
        (PyArg.str "hello") (PyArg.str "98912345678") none none none
      = OpResult.ret (Json.bool false) :=
  ⟨rfl, rfl⟩

/-- Claim C2 (amended): against a transport answering with the envelope
whose result code is 402 and message Insufficient credit, makeRequest
raises the ApiException carrying code 402 and that message internally,
and every public operation catches it and returns its bare failure
sentinel (False, or None for getAccountInfo) without raising past the
public boundary. -/
theorem C2_insufficient_credit_sentinels (g : Ghasedak) (status : Nat)
    (message receptor otp template id : PyArg)
    (linenumber senddate checkid : Option PyArg) (mtype : MessageType)
    (idtype : MessageIDType) (params : List (String × PyArg))
    (endpoint method : String) (data : List (String × ParamValue)) :
    g.makeRequest (constTransport (HttpOutcome.httpResponse status
        (Json.obj [("result", Json.obj [("code", Json.num 402),
          ("message", Json.str "Insufficient credit")])])))
        endpoint data method
      = MakeRequestOutcome.raiseApi
          (ApiException.mk (Json.num 402) (Json.str "Insufficient credit"))
    ∧ g.sendMessage (constTransport (HttpOutcome.httpResponse status
        (Json.obj [("result", Json.obj [("code", Json.num 402),
          ("message", Json.str "Insufficient credit")])])))
        message receptor linenumber senddate checkid
      = OpResult.ret (Json.bool false)
    ∧ g.sendOtpVerification (constTransport (HttpOutcome.httpResponse status
        (Json.obj [("result", Json.obj [("code", Json.num 402),
          ("message", Json.str "Insufficient credit")])])))
        otp receptor template mtype checkid params
      = OpResult.ret (Json.bool false)
    ∧ g.getSMSStatus (constTransport (HttpOutcome.httpResponse status
        (Json.obj [("result", Json.obj [("code", Json.num 402),
          ("message", Json.str "Insufficient credit")])])))
        id idtype
      = OpResult.ret (Json.bool false)
    ∧ g.getAccountInfo (constTransport (HttpOutcome.httpResponse status
        (Json.obj [("result", Json.obj [("code", Json.num 402),
          ("message", Json.str "Insufficient credit")])])))
      = OpResult.ret Json.null :=
  ⟨rfl, rfl, rfl, rfl, rfl⟩

/-- Claim C4: whatever extra keyword parameters the caller supplies,
including a binding for param1, the parameter mapping sendOtpVerification
passes to dispatch binds param1 to the stringified otp argument, because
the assignment of param1 happens after the keyword-parameter loop. -/
theorem C4_param1_forced_to_otp (otp receptor template : PyArg)
    (type : MessageType) (checkid : Option PyArg)
    (params : List (String × PyArg)) :
    (sendOtpVerificationData otp receptor template type checkid params).lookup
        "param1"
      = some (ParamValue.str otp.toStr) := by
  unfold sendOtpVerificationData
  exact lookup_dictSet_self _ _ _

/-- Claim C5: when the response envelope has result code 200 and an items
array whose index 1 is occupied, sendMessage returns that second element,
discarding the first. -/
theorem C5_sendMessage_second_item (g : Ghasedak) (status : Nat) (m : String)
    (xs : List Json) (message receptor : PyArg)
    (linenumber senddate checkid : Option PyArg) (y : Json)
    (h : xs[1]? = some y) :
    g.sendMessage (constTransport (HttpOutcome.httpResponse status
        (envelope 200 m (Json.arr xs)))) message receptor linenumber senddate
        checkid
      = OpResult.ret y := by
  simp only [Ghasedak.sendMessage, makeRequest_envelope_200]
  simp [Json.index, h]

/-- Claim C5 witness: with the documented mock envelope whose items are
the array of x and 42, sendMessage yields 42, not x. -/
theorem C5_witness :
    (Ghasedak.init "key").sendMessage (constTransport (HttpOutcome.httpResponse 200
        (envelope 200 "ok" (Json.arr [Json.str "x", Json.str "42"]))))
        (PyArg.str "hello") (PyArg.str "98912345678") none none none
      = OpResult.ret (Json.str "42") :=
  C5_sendMessage_second_item (Ghasedak.init "key") 200 "ok"
    [Json.str "x", Json.str "42"] (PyArg.str "hello") (PyArg.str "98912345678")
    none none none (Json.str "42") rfl

/-- Claim C6: an HTTP status in the 4xx or 5xx range does not short-circuit
makeRequest; the body is parsed and the domain result code checked
exactly as for a 200 status, so the outcome equals the outcome for the
same body under status 200. -/
theorem C6_http_error_status_ignored (g : Ghasedak) (endpoint : String)
    (data : List (String × ParamValue)) (method : String) (status : Nat)
    (body : Json) (_h4 : 400 ≤ status) (_h6 : status < 600) :
    g.makeRequest (constTransport (HttpOutcome.httpResponse status body))
        endpoint data method
      = g.makeRequest (constTransport (HttpOutcome.httpResponse 200 body))
        endpoint data method := rfl

/-- Claim C6 witness: a 404 round-trip with a well-formed success body is
handled identically to a 200 round-trip with that body. -/
theorem C6_witness :
    (Ghasedak.init "key").makeRequest (constTransport (HttpOutcome.httpResponse 404
        (envelope 200 "ok" Json.null))) "/sms/status" [] "GET"
      = (Ghasedak.init "key").makeRequest (constTransport (HttpOutcome.httpResponse 200
        (envelope 200 "ok" Json.null))) "/sms/status" [] "GET" :=
  C6_http_error_status_ignored (Ghasedak.init "key") "/sms/status" [] "GET" 404
    (envelope 200 "ok" Json.null) (by decide) (by decide)

/-- Claim C8: with linenumber, senddate and checkid all omitted, the
parameter mapping sendMessage passes to dispatch is exactly the two-entry
mapping of message and receptor, each stringified. -/
theorem C8_minimal_sendMessage_params (message receptor : PyArg) :
    sendMessageData message receptor none none none
      = [("message", ParamValue.str message.toStr),
         ("receptor", ParamValue.str receptor.toStr)] := rfl

/-- Claim C9: an ApiException built from an int code in the 400 to 499
range and a string message carries that code and message, and its string
conversion is the code, the Client Error label, and the message. -/
theorem C9_client_error_string (c : Int) (m : String) (h4 : 400 ≤ c)
    (h5 : c < 500) :
    (ApiException.mk (Json.num c) (Json.str m)).code = Json.num c
    ∧ (ApiException.mk (Json.num c) (Json.str m)).message = Json.str m
    ∧ (ApiException.mk (Json.num c) (Json.str m)).strConv
      = Except.ok (some (toString c ++ " Client Error: " ++ m)) := by
  refine ⟨rfl, rfl, ?_⟩
  simp only [ApiException.strConv]
  rw [if_pos ⟨h4, h5⟩]
  rfl

/-- Claim C9 witness: the ApiException with code 404 and message Not Found
carries them and reads 404 Client Error: Not Found. -/
theorem C9_witness :
    (ApiException.mk (Json.num 404) (Json.str "Not Found")).code = Json.num 404
    ∧ (ApiException.mk (Json.num 404) (Json.str "Not Found")).message
      = Json.str "Not Found"
    ∧ (ApiException.mk (Json.num 404) (Json.str "Not Found")).strConv
      = Except.ok (some "404 Client Error: Not Found") :=
  C9_client_error_string 404 "Not Found" (by decide) (by decide)

/-- Claim C3 (counterexample): the outbound parameter mapping of
getSMSStatus binds the type key to the raw enum integer 2, which is not a
string, so not every outbound parameter value is a string. -/
theorem C3_type_value_not_string :
    (getSMSStatusData (PyArg.str "123") MessageIDType.CHECK_ID).lookup "type"
      = some (ParamValue.int 2)
    ∧ ParamValue.isStr (ParamValue.int 2) = false := by
  decide

/-- Claim C3 (amended): in every outbound parameter mapping, every value
under a key other than type is a string; the type key of
sendOtpVerification and getSMSStatus is bound to the raw enum integer,
not its string form (sendMessage sends no type key at all). -/
theorem C3_values_strings_except_type (message receptor otp template id : PyArg)
    (linenumber senddate checkid : Option PyArg) (mtype : MessageType)
    (idtype : MessageIDType) (params : List (String × PyArg))
    (hparams : ∀ q ∈ params, q.1 ≠ "type") :
    (sendMessageData message receptor linenumber senddate checkid).all
        (fun p => p.2.isStr) = true
    ∧ (sendOtpVerificationData otp receptor template mtype checkid params).all
        (fun p => p.1 == "type" || p.2.isStr) = true
    ∧ (sendOtpVerificationData otp receptor template mtype checkid params).lookup
        "type" = some (ParamValue.int mtype.value)
    ∧ (getSMSStatusData id idtype).all
        (fun p => p.1 == "type" || p.2.isStr) = true
    ∧ (getSMSStatusData id idtype).lookup "type"
      = some (ParamValue.int idtype.value) := by
  refine ⟨?_, ?_, ?_, ?_, rfl⟩
  · cases linenumber <;> cases senddate <;> cases checkid <;> rfl
  · unfold sendOtpVerificationData
    apply all_dictSet
    · apply all_foldl_dictSet
      · cases checkid <;> rfl
      · intro q hq
        simp [ParamValue.isStr]
    · rfl
  · unfold sendOtpVerificationData
    rw [lookup_dictSet_ne _ _ _ _ (show "type" ≠ "param1" by decide)]
    rw [foldl_lookup_ne _ _ _ hparams]
    cases checkid
    · exact lookup_dictSet_self _ _ _
    · rw [lookup_dictSet_ne _ _ _ _ (show "type" ≠ "checkid" by decide)]
      exact lookup_dictSet_self _ _ _
  · rfl

/-- Claim C3 witness: concrete parameter mappings for the three builders,
with a caller-supplied param2, satisfy the amended property. -/
theorem C3_witness :
    (sendMessageData (PyArg.str "hello") (PyArg.str "98912345678") none none
        (some (PyArg.int 77))).all (fun p => p.2.isStr) = true
    ∧ (sendOtpVerificationData (PyArg.str "1234") (PyArg.str "98912345678")
        (PyArg.str "mytemplate") MessageType.TEXT none
        [("param2", PyArg.str "x")]).all
        (fun p => p.1 == "type" || p.2.isStr) = true
    ∧ (sendOtpVerificationData (PyArg.str "1234") (PyArg.str "98912345678")
        (PyArg.str "mytemplate") MessageType.TEXT none
        [("param2", PyArg.str "x")]).lookup "type" = some (ParamValue.int 1)
    ∧ (getSMSStatusData (PyArg.str "123") MessageIDType.CHECK_ID).all
        (fun p => p.1 == "type" || p.2.isStr) = true
    ∧ (getSMSStatusData (PyArg.str "123") MessageIDType.CHECK_ID).lookup "type"
      = some (ParamValue.int 2) :=
  C3_values_strings_except_type (PyArg.str "hello") (PyArg.str "98912345678")
    (PyArg.str "1234") (PyArg.str "98912345678") (PyArg.str "123") none none
    (some (PyArg.int 77)) MessageType.TEXT MessageIDType.CHECK_ID
    [("param2", PyArg.str "x")] (by decide)

/-- Claim C7: a successful getSMSStatus call whose returned entries all
carry int status codes between 0 and 6 returns a sequence of the same
length in which every entry carries a string from the Statuses table in
its status field, never the original integer. -/
theorem C7_status_rewritten_to_table_string (g : Ghasedak) (status : Nat)
    (m : String) (id : PyArg) (idtype : MessageIDType) (items : List Json)
    (h : ∀ item ∈ items, hasIntStatusInTable item) :
    ∃ out, g.getSMSStatus (constTransport (HttpOutcome.httpResponse status
        (envelope 200 m (Json.arr items)))) id idtype
        = OpResult.ret (Json.arr out)
      ∧ out.length = items.length
      ∧ ∀ o ∈ out, hasTableStatusString o := by
  rcases translateStatusList_table items h with ⟨out, hout, hlen, hP⟩
  refine ⟨out, ?_, hlen, hP⟩
  simp only [Ghasedak.getSMSStatus, makeRequest_envelope_200]
  simp [translateStatuses, hout]

/-- Claim C7 witness: an entry with status 5 is rewritten in place to the
Blacklist string; the second conjunct pins the exact output. -/
theorem C7_witness :
    (∃ out, (Ghasedak.init "key").getSMSStatus (constTransport
        (HttpOutcome.httpResponse 200 (envelope 200 "ok"
          (Json.arr [Json.obj [("status", Json.num 5)]]))))
        (PyArg.str "1") MessageIDType.CHECK_ID = OpResult.ret (Json.arr out)
      ∧ out.length = 1
      ∧ ∀ o ∈ out, hasTableStatusString o)
    ∧ (Ghasedak.init "key").getSMSStatus (constTransport
        (HttpOutcome.httpResponse 200 (envelope 200 "ok"
          (Json.arr [Json.obj [("status", Json.num 5)]]))))
        (PyArg.str "1") MessageIDType.CHECK_ID
      = OpResult.ret (Json.arr
          [Json.obj [("status", Json.str "Receptor is in Blacklist")]]) :=
  ⟨C7_status_rewritten_to_table_string (Ghasedak.init "key") 200 "ok"
    (PyArg.str "1") MessageIDType.CHECK_ID [Json.obj [("status", Json.num 5)]]
    (by
      intro item hitem
      rw [List.mem_singleton] at hitem
      subst hitem
      exact ⟨[("status", Json.num 5)], 5, rfl, rfl, by decide, by decide⟩),
   rfl⟩

/-- Claim C10: for an int result code other than 200 lying outside 400 to
499, the ApiException string conversion returns None, formatting it in
the except clause raises TypeError, and thus every public operation
raises TypeError out of its own failure-handling path instead of
returning its failure sentinel. -/
theorem C10_out_of_range_code_raises (g : Ghasedak) (status : Nat) (c : Int)
    (m : String) (message receptor otp template id : PyArg)
    (linenumber senddate checkid : Option PyArg) (mtype : MessageType)
    (idtype : MessageIDType) (params : List (String × PyArg))
    (hne : c ≠ 200) (hout : c < 400 ∨ 500 ≤ c) :
    (ApiException.mk (Json.num c) (Json.str m)).strConv = Except.ok none
    ∧ formatGhasedakError (ApiException.mk (Json.num c) (Json.str m))
      = Except.error PyError.typeError
    ∧ g.sendMessage (constTransport (HttpOutcome.httpResponse status
        (envelope c m Json.null))) message receptor linenumber senddate checkid
      = OpResult.raises PyError.typeError
    ∧ g.sendOtpVerification (constTransport (HttpOutcome.httpResponse status
        (envelope c m Json.null))) otp receptor template mtype checkid params
      = OpResult.raises PyError.typeError
    ∧ g.getSMSStatus (constTransport (HttpOutcome.httpResponse status
        (envelope c m Json.null))) id idtype
      = OpResult.raises PyError.typeError
    ∧ g.getAccountInfo (constTransport (HttpOutcome.httpResponse status
        (envelope c m Json.null)))
      = OpResult.raises PyError.typeError := by
  have hnot : ¬(400 ≤ c ∧ c < 500) := by
    rcases hout with h | h <;> omega
  have hstr : (ApiException.mk (Json.num c) (Json.str m)).strConv
      = Except.ok none := by
    simp only [ApiException.strConv]
    rw [if_neg hnot]
  have hfmt : formatGhasedakError (ApiException.mk (Json.num c) (Json.str m))
      = Except.error PyError.typeError := by
    simp only [formatGhasedakError, hstr]
  refine ⟨hstr, hfmt, ?_, ?_, ?_, ?_⟩
  · simp only [Ghasedak.sendMessage]
    rw [makeRequest_envelope_non200 g status c m Json.null _ _ _ hne]
    simp only [hfmt]
  · simp only [Ghasedak.sendOtpVerification]
    rw [makeRequest_envelope_non200 g status c m Json.null _ _ _ hne]
    simp only [hfmt]
  · simp only [Ghasedak.getSMSStatus]
    rw [makeRequest_envelope_non200 g status c m Json.null _ _ _ hne]
    simp only [hfmt]
  · simp only [Ghasedak.getAccountInfo]
    rw [makeRequest_envelope_non200 g status c m Json.null _ _ _ hne]
    simp only [hfmt]

/-- Claim C10 witness: a domain error with code 500 makes all four public
operations raise TypeError from their own error-formatting path. -/
theorem C10_witness :
    (ApiException.mk (Json.num 500) (Json.str "Server Error")).strConv
      = Except.ok none
    ∧ formatGhasedakError (ApiException.mk (Json.num 500)
        (Json.str "Server Error"))
      = Except.error PyError.typeError
    ∧ (Ghasedak.init "key").sendMessage (constTransport
        (HttpOutcome.httpResponse 200 (envelope 500 "Server Error" Json.null)))
        (PyArg.str "hello") (PyArg.str "98912345678") none none none
      = OpResult.raises PyError.typeError
    ∧ (Ghasedak.init "key").sendOtpVerification (constTransport
        (HttpOutcome.httpResponse 200 (envelope 500 "Server Error" Json.null)))
        (PyArg.str "1234") (PyArg.str "98912345678") (PyArg.str "mytemplate")
        MessageType.TEXT none []
      = OpResult.raises PyError.typeError
    ∧ (Ghasedak.init "key").getSMSStatus (constTransport
        (HttpOutcome.httpResponse 200 (envelope 500 "Server Error" Json.null)))
        (PyArg.str "123") MessageIDType.CHECK_ID
      = OpResult.raises PyError.typeError
    ∧ (Ghasedak.init "key").getAccountInfo (constTransport
        (HttpOutcome.httpResponse 200 (envelope 500 "Server Error" Json.null)))
      = OpResult.raises PyError.typeError :=
  C10_out_of_range_code_raises (Ghasedak.init "key") 200 500 "Server Error"
    (PyArg.str "hello") (PyArg.str "98912345678") (PyArg.str "1234")
    (PyArg.str "mytemplate") (PyArg.str "123") none none none MessageType.TEXT
    MessageIDType.CHECK_ID [] (by decide) (by decide)

end GhasedakLib
